import Mathlib

/-!
Verification of the Mini-URL application (src/main.py) against its
natural-language specification.

The web application has two stateful components:
a URL registry mapping short codes to long URLs, and a credential store
of user records.  Both are backed by a relational store; here each is
embedded as a Lean list serving as the table, with every handler a pure
function from inputs and store state to a response (and, for writers, an
updated state).
-/

namespace MiniUrl

/-! ## URL registry data model -/

/-- A stored (short_code, long_url) pair, the UrlMapping entity of the
spec's data model (spec section 3). -/
structure UrlMapping where
  short_code : String
  long_url : String
deriving DecidableEq, Repr

/-- The URL registry table: the list of persisted mappings, most recently
inserted first. -/
abbrev Registry := List UrlMapping

/-- Modelled from the spec: `resolve(short_code) -> long_url | NotFound`.
The function `get_long_url` is imported in main.py from the `utility`
module, which is not part of src/; main.py line 162 tests its result
with `is False` on a miss, modelled here as `none`.  Looks the short
code up in the mapping store and returns the stored long URL on a hit. -/
def get_long_url (short_code : String) (reg : Registry) : Option String :=
  (reg.find? (fun m => m.short_code == short_code)).map (fun m => m.long_url)

/-- Length of the longest short code in use (0 when none). -/
def maxCodeLen (used : List String) : Nat :=
  used.foldr (fun s n => max s.length n) 0

/-- Modelled from the spec: the short-code generation scheme of
`allocate`, absent from src/ (delegated to the `utility` module).  The
spec requires only that the generated code not collide with any existing
code and leaves the scheme an open design choice; this one returns a
code strictly longer than every code in use, hence fresh. -/
def freshCode (used : List String) : String :=
  String.mk (List.replicate (maxCodeLen used + 1) 'a')

/-- The short codes currently live in the registry. -/
def codes (reg : Registry) : List String :=
  reg.map (fun m => m.short_code)

/-- Modelled from the spec: `allocate(long_url) -> short_code`, absent
from src/ (delegated to the `utility` module).  Produces a short code
that collides with no existing code, persists the (short_code, long_url)
pair, and returns the new code together with the updated store. -/
def allocate (long_url : String) (reg : Registry) : String × Registry :=
  let code := freshCode (codes reg)
  (code, { short_code := code, long_url := long_url } :: reg)

/-! ## Boundary layer for the registry (from src/main.py) -/

/-- Observable response of the redirection route (main.py lines
159-165): either the error/urlnotfound.html template or an HTTP
redirect to the stored long URL. -/
inductive RedirectResponse where
  | urlNotFoundPage
  | redirectTo (url : String)
deriving DecidableEq, Repr

/-- The route handler for GET /short_url (main.py lines 159-165):
looks the code up via get_long_url; on a miss renders the not-found
template, otherwise redirects to the stored long URL. -/
def redirection (short_url : String) (reg : Registry) : RedirectResponse :=
  match get_long_url short_url reg with
  | none => RedirectResponse.urlNotFoundPage
  | some l => RedirectResponse.redirectTo l

/-- The submitted form of the /url route: its single field is the form
value request.form of key url. -/
structure UrlForm where
  url : String
deriving DecidableEq, Repr

/-- HTTP method of a request to the /url route. -/
inductive Method where
  | GET
  | POST
deriving DecidableEq, Repr

/-- Observable response of the /url route (main.py lines 111-116):
either the raw submitted string echoed back, or the url_page.html
template. -/
inductive UrlResponse where
  | text (s : String)
  | urlPageTemplate
deriving DecidableEq, Repr

/-- The route handler for /url (main.py lines 111-116): on POST it
returns the submitted form value request.form of key url as the
response body; on GET it renders url_page.html.  It never touches the
store, so the registry is returned unchanged. -/
def url (method : Method) (form : UrlForm) (reg : Registry) : UrlResponse × Registry :=
  match method with
  | Method.POST => (UrlResponse.text form.url, reg)
  | Method.GET => (UrlResponse.urlPageTemplate, reg)

/-! ## Credential store data model (from src/main.py) -/

/-- A stored user record (main.py lines 63-67): integer primary key,
username, password (the stored bcrypt hash string), email. -/
structure User where
  id : Nat
  username : String
  password : String
  email : String
deriving DecidableEq, Repr

/-- The users table: the list of persisted user records in insertion
order. -/
abbrev Users := List User

/-- Models the external bcrypt library call
bcrypt.generate_password_hash (main.py line 152): an executable
injective stand-in tagging the input, never equal to the plaintext it
hashes. -/
def generate_password_hash (password : String) : String :=
  "bcrypt$" ++ password

/-- Models the external bcrypt library call bcrypt.check_password_hash
(main.py line 124): verification succeeds exactly when the stored hash
is the hash of the supplied password. -/
def check_password_hash (hash password : String) : Bool :=
  hash == generate_password_hash password

/-- The helper check_username (main.py lines 98-99): true when no
stored user has the given username (the first-match query returns
nothing). -/
def check_username (username : String) (users : Users) : Bool :=
  (users.find? (fun u => u.username == username)).isNone

/-- The helper check_email (main.py lines 101-102): true when no stored
user has the given email. -/
def check_email (email : String) (users : Users) : Bool :=
  (users.find? (fun u => u.email == email)).isNone

/-! ## Register and login handlers (from src/main.py) -/

/-- Observable response of the register route (main.py lines 143-157)
once the form has validated: the username-exists page (the
UsernameTaken outcome of the spec), the email-exists page (EmailTaken),
or a redirect to the login page (success). -/
inductive RegisterResult where
  | usernameExistsPage
  | emailExistsPage
  | redirectLogin
deriving DecidableEq, Repr

/-- The register route body after form validation (main.py lines
148-156): rejects when the username is taken, then when the email is
taken, and only otherwise hashes the password, inserts the new user
record (primary key modelled as the table length), and redirects to
login.  Form-validation framework mechanics are excluded by the spec as
a non-goal. -/
def register (username password email : String) (users : Users) :
    RegisterResult × Users :=
  if !check_username username users then
    (RegisterResult.usernameExistsPage, users)
  else if !check_email email users then
    (RegisterResult.emailExistsPage, users)
  else
    (RegisterResult.redirectLogin,
      users ++ [{ id := users.length, username := username,
                  password := generate_password_hash password, email := email }])

/-- The user lookup of the login route (main.py line 123): the query by
username, falling back to the query by email when the first returns
nothing, mirroring the Python expression
filter_by(username=...).first() or filter_by(email=...).first(). -/
def find_login_user (identifier : String) (users : Users) : Option User :=
  (users.find? (fun u => u.username == identifier)).orElse
    (fun _ => users.find? (fun u => u.email == identifier))

/-- Observable response of the login route (main.py lines 118-130) once
the form has validated: a redirect to the dashboard with the user
logged in, the login_wrong_info.html page, or the plain login.html
page. -/
inductive LoginResult where
  | redirectDashboard (u : User)
  | wrongInfoPage
  | loginPage
deriving DecidableEq, Repr

/-- The login route body after form validation (main.py lines 122-130):
looks the identifier up as a username and then as an email; if a user
is found and the password verifies, logs the user in and redirects to
the dashboard; if a user is found but the password fails, renders
login_wrong_info.html; if no user is found, falls through to render
login.html. -/
def login (identifier password : String) (users : Users) : LoginResult :=
  match find_login_user identifier users with
  | some u =>
    if check_password_hash u.password password then
      LoginResult.redirectDashboard u
    else
      LoginResult.wrongInfoPage
  | none => LoginResult.loginPage

/-- Uniqueness invariant of the users table (spec section 3): no two
stored users share a username, and no two share an email. -/
def UsersUnique (users : Users) : Prop :=
  users.Pairwise (fun a b => a.username ≠ b.username ∧ a.email ≠ b.email)

/-! ## Helper lemmas -/

theorem length_mk (l : List Char) : (String.mk l).length = l.length := rfl

theorem mem_le_maxCodeLen {s : String} {used : List String} (h : s ∈ used) :
    s.length ≤ maxCodeLen used := by
  induction used with
  | nil => cases h
  | cons a l ih =>
    rcases List.mem_cons.mp h with rfl | hl
    · exact le_max_left _ _
    · exact le_trans (ih hl) (le_max_right _ _)

theorem freshCode_not_mem (used : List String) : freshCode used ∉ used := by
  intro hmem
  have hle := mem_le_maxCodeLen hmem
  have hlen : (freshCode used).length = maxCodeLen used + 1 := by
    simp [freshCode, length_mk]
  omega

theorem check_username_spec (username : String) (users : Users) :
    check_username username users = true ↔ ∀ x ∈ users, x.username ≠ username := by
  simp [check_username, Option.isNone_iff_eq_none, List.find?_eq_none]

theorem check_email_spec (email : String) (users : Users) :
    check_email email users = true ↔ ∀ x ∈ users, x.email ≠ email := by
  simp [check_email, Option.isNone_iff_eq_none, List.find?_eq_none]

/-- Unfolding of a successful register call: both uniqueness checks
passed and the new record was appended. -/
theorem register_success_inv {u p e : String} {users users2 : Users}
    (h : register u p e users = (RegisterResult.redirectLogin, users2)) :
    check_username u users = true ∧ check_email e users = true ∧
    users2 = users ++ [{ id := users.length, username := u,
                         password := generate_password_hash p, email := e }] := by
  by_cases h1 : check_username u users
  · by_cases h2 : check_email e users
    · refine ⟨h1, h2, ?_⟩
      simpa [register, h1, h2] using h.symm
    · simp [register, h1, h2] at h
  · simp [register, h1] at h

/-! ## Claim theorems: URL registry -/

/-- C1: for every long URL string, allocating a short code for it and
then resolving that short code returns the original long URL. -/
theorem resolve_allocate_roundtrip (long_url : String) (reg : Registry) :
    get_long_url (allocate long_url reg).1 (allocate long_url reg).2 = some long_url := by
  simp [allocate, get_long_url]

/-- C2: for every short code that was never allocated (it is not among
the registry's live codes), resolve returns NotFound (none) as a result
value, and the redirection route of main.py renders it as the
urlnotfound error page. -/
theorem resolve_unallocated_not_found (code : String) (reg : Registry)
    (h : code ∉ codes reg) :
    get_long_url code reg = none ∧
    redirection code reg = RedirectResponse.urlNotFoundPage := by
  have hnone : get_long_url code reg = none := by
    have : reg.find? (fun m => m.short_code == code) = none := by
      rw [List.find?_eq_none]
      intro m hm hbeq
      exact h (List.mem_map.mpr ⟨m, hm, by simpa using hbeq⟩)
    simp [get_long_url, this]
  exact ⟨hnone, by simp [redirection, hnone]⟩

/-- Witness for C2 at the spec's scenario: in a registry holding one
allocated mapping, the code "zzzz" was never allocated and resolves to
the not-found page. -/
theorem resolve_unallocated_not_found_witness :
    get_long_url "zzzz" (allocate "https://example.com/a" []).2 = none ∧
    redirection "zzzz" (allocate "https://example.com/a" []).2 =
      RedirectResponse.urlNotFoundPage :=
  resolve_unallocated_not_found "zzzz" (allocate "https://example.com/a" []).2 (by decide)

/-- C3: allocate never reuses a live short code: while the code returned
by a first allocate call is still among the registry's codes, a second
allocate call returns a distinct code. -/
theorem allocate_no_reuse (l1 l2 : String) (reg0 reg : Registry)
    (h : (allocate l1 reg0).1 ∈ codes reg) :
    (allocate l2 reg).1 ≠ (allocate l1 reg0).1 := by
  intro heq
  have hmem : (allocate l2 reg).1 ∈ codes reg := heq ▸ h
  exact freshCode_not_mem (codes reg) hmem

/-- Witness for C3: two consecutive allocate calls on an initially empty
registry return distinct codes. -/
theorem allocate_no_reuse_witness :
    (allocate "https://example.com/b" (allocate "https://example.com/a" []).2).1 ≠
      (allocate "https://example.com/a" []).1 :=
  allocate_no_reuse "https://example.com/a" "https://example.com/b" []
    (allocate "https://example.com/a" []).2 (by decide)

/-- C10: a POST to the /url endpoint returns the submitted url form
value verbatim as the response body, and leaves the registry unchanged:
no mapping is created or persisted by this route. -/
theorem url_post_echoes_no_write (form : UrlForm) (reg : Registry) :
    url Method.POST form reg = (UrlResponse.text form.url, reg) := rfl

/-! ## Claim theorems: credential store -/

/-- C4: a successful register of username u followed immediately by a
second register with the same username u makes the second call render
the username-exists page (UsernameTaken), and the second call writes
nothing: the users table is the one left by the first call. -/
theorem register_duplicate_username (u p e p2 e2 : String)
    (users users2 : Users)
    (h : register u p e users = (RegisterResult.redirectLogin, users2)) :
    register u p2 e2 users2 = (RegisterResult.usernameExistsPage, users2) := by
  obtain ⟨-, -, h2⟩ := register_success_inv h
  have hfalse : check_username u users2 = false := by
    rw [Bool.eq_false_iff]
    intro htrue
    have := (check_username_spec u users2).mp htrue
      { id := users.length, username := u,
        password := generate_password_hash p, email := e }
      (by simp [h2])
    exact this rfl
  simp [register, hfalse]

/-- Witness for C4: registering alice in an empty store and then
registering alice again returns the username-exists page with the store
unchanged. -/
theorem register_duplicate_username_witness :
    register "alice" "other1234" "b@y.com"
        (register "alice" "password1" "a@x.com" []).2 =
      (RegisterResult.usernameExistsPage,
        (register "alice" "password1" "a@x.com" []).2) :=
  register_duplicate_username "alice" "password1" "a@x.com" "other1234" "b@y.com"
    [] (register "alice" "password1" "a@x.com" []).2 (by rfl)

/-- A concrete one-user store: alice registered with password
"password1" (the stored password field is the bcrypt hash). -/
def aliceUsers : Users :=
  [{ id := 0, username := "alice",
     password := generate_password_hash "password1", email := "a@x.com" }]

/-- C5 counterexample: the code distinguishes an existing user with a
wrong password (login_wrong_info.html) from a nonexistent identifier
(falls through to login.html), so the two cases do not yield the same
observable outcome. -/
theorem login_distinguishes_counterexample :
    login "alice" "wrongpass1" aliceUsers ≠ login "bob" "password1" aliceUsers := by
  decide

/-- C5 amended: in both failure cases no user is logged in, but the
observable responses differ: an unknown identifier falls through to the
plain login page, while an existing user with a wrong password receives
the dedicated wrong-credentials page. -/
theorem login_failure_responses (identifier p : String) (users : Users) :
    (find_login_user identifier users = none →
      login identifier p users = LoginResult.loginPage) ∧
    (∀ u, find_login_user identifier users = some u →
      check_password_hash u.password p = false →
      login identifier p users = LoginResult.wrongInfoPage) := by
  constructor
  · intro hnone
    simp [login, hnone]
  · intro u hu hpw
    simp [login, hu, hpw]

/-- Witness for C5 amended: concrete unknown identifier bob versus
alice with a wrong password. -/
theorem login_failure_responses_witness :
    login "bob" "password1" aliceUsers = LoginResult.loginPage ∧
    login "alice" "wrongpass1" aliceUsers = LoginResult.wrongInfoPage :=
  ⟨(login_failure_responses "bob" "password1" aliceUsers).1 (by decide),
   (login_failure_responses "alice" "wrongpass1" aliceUsers).2
     { id := 0, username := "alice",
       password := generate_password_hash "password1", email := "a@x.com" }
     (by decide) (by decide)⟩

/-- C6: the uniqueness invariant (no two users share a username, no two
share an email) is preserved by register, the only operation in the
application that writes user records; every other handler leaves the
users table untouched. -/
theorem register_preserves_uniqueness (u p e : String) (users : Users)
    (h : UsersUnique users) : UsersUnique (register u p e users).2 := by
  by_cases h1 : check_username u users
  · by_cases h2 : check_email e users
    · have hu := (check_username_spec u users).mp h1
      have he := (check_email_spec e users).mp h2
      have hstate : (register u p e users).2 =
          users ++ [{ id := users.length, username := u,
                      password := generate_password_hash p, email := e }] := by
        simp [register, h1, h2]
      rw [hstate]
      unfold UsersUnique
      rw [List.pairwise_append]
      refine ⟨h, List.pairwise_singleton _ _, ?_⟩
      intro a ha b hb
      rcases List.mem_singleton.mp hb with rfl
      exact ⟨hu a ha, he a ha⟩
    · have : (register u p e users).2 = users := by simp [register, h1, h2]
      rwa [this]
  · have : (register u p e users).2 = users := by simp [register, h1]
    rwa [this]

/-- Witness for C6: registering alice into the empty (trivially unique)
store yields a store satisfying the invariant. -/
theorem register_preserves_uniqueness_witness :
    UsersUnique (register "alice" "password1" "a@x.com" []).2 :=
  register_preserves_uniqueness "alice" "password1" "a@x.com" [] List.Pairwise.nil

/-- C7: the login lookup tries the identifier as a username first; only
when no user has that username does it fall back to the email lookup;
and a user found by either lookup is accepted (logged in and redirected
to the dashboard) when the password verifies. -/
theorem login_lookup_order (identifier p : String) (users : Users) :
    ((users.find? (fun u => u.username == identifier)).isSome →
      find_login_user identifier users =
        users.find? (fun u => u.username == identifier)) ∧
    (users.find? (fun u => u.username == identifier) = none →
      find_login_user identifier users =
        users.find? (fun u => u.email == identifier)) ∧
    (∀ u, find_login_user identifier users = some u →
      check_password_hash u.password p = true →
      login identifier p users = LoginResult.redirectDashboard u) := by
  refine ⟨?_, ?_, ?_⟩
  · intro hsome
    obtain ⟨v, hv⟩ := Option.isSome_iff_exists.mp hsome
    simp [find_login_user, hv]
  · intro hnone
    simp [find_login_user, hnone]
  · intro u hu hpw
    simp [login, hu, hpw]

/-- A concrete one-user store for the email-fallback witness: bob
registered, later looked up by email. -/
def bobUsers : Users :=
  [{ id := 0, username := "bob",
     password := generate_password_hash "pw123456", email := "bob@x.com" }]

/-- Witness for C7: looking bob up by his email (no username matches)
falls back to the email query and, with the right password, logs him in. -/
theorem login_lookup_order_witness :
    find_login_user "bob@x.com" bobUsers =
      bobUsers.find? (fun u => u.email == "bob@x.com") ∧
    login "bob@x.com" "pw123456" bobUsers = LoginResult.redirectDashboard
      { id := 0, username := "bob",
        password := generate_password_hash "pw123456", email := "bob@x.com" } :=
  ⟨(login_lookup_order "bob@x.com" "pw123456" bobUsers).2.1 (by decide),
   (login_lookup_order "bob@x.com" "pw123456" bobUsers).2.2
     { id := 0, username := "bob",
       password := generate_password_hash "pw123456", email := "bob@x.com" }
     (by decide) (by decide)⟩

/-- C8: on every successful register, the stored record is the appended
user whose password field is the bcrypt hash of the submitted password,
and that hash is never the plaintext password itself. -/
theorem register_stores_hash (u p e : String) (users users2 : Users)
    (h : register u p e users = (RegisterResult.redirectLogin, users2)) :
    users2 = users ++ [{ id := users.length, username := u,
                         password := generate_password_hash p, email := e }] ∧
    generate_password_hash p ≠ p := by
  refine ⟨(register_success_inv h).2.2, ?_⟩
  intro heq
  have hlen := congrArg String.length heq
  rw [generate_password_hash, String.length_append] at hlen
  have h7 : ("bcrypt$" : String).length = 7 := rfl
  rw [h7] at hlen
  omega

/-- Witness for C8: registering alice stores the hash of "password1",
which differs from the plaintext. -/
theorem register_stores_hash_witness :
    (register "alice" "password1" "a@x.com" []).2 =
      [] ++ [{ id := 0, username := "alice",
               password := generate_password_hash "password1", email := "a@x.com" }] ∧
    generate_password_hash "password1" ≠ "password1" :=
  register_stores_hash "alice" "password1" "a@x.com" []
    (register "alice" "password1" "a@x.com" []).2 (by rfl)

/-- C9: when register rejects (any outcome other than the success
redirect, i.e. the username-exists or email-exists page), no user
record is written: the users table is unchanged by the failed call. -/
theorem register_reject_no_write (u p e : String) (users : Users)
    (h : (register u p e users).1 ≠ RegisterResult.redirectLogin) :
    (register u p e users).2 = users := by
  by_cases h1 : check_username u users
  · by_cases h2 : check_email e users
    · exact absurd (by simp [register, h1, h2]) h
    · simp [register, h1, h2]
  · simp [register, h1]

/-- Witness for C9: the rejected duplicate registration of alice leaves
the one-user store exactly as it was. -/
theorem register_reject_no_write_witness :
    (register "alice" "other1234" "b@y.com" aliceUsers).2 = aliceUsers :=
  register_reject_no_write "alice" "other1234" "b@y.com" aliceUsers (by decide)

end MiniUrl
